import Mathlib

/-!
Message consumption pipeline (`consumers/messages.go`)

A shallow embedding of `handle`, `makeTransformer` and `Start`.

* Go's `error` is `Option ε`: `none` is the nil error.
* An `interface{}` value handed to a consumer is an `Iface M R`: either the
  raw message or a value produced by a transformer.
* A consumer and a subscriber are stateful collaborators; their methods are
  state-passing functions, and every call made to them is appended to a log,
  so that "how many times was it called, and with what" is a statement about
  the log.
-/

namespace Consumers

/-! ## Data model -/

/-- Dynamic value `interface{}` as it flows from the handler to the consumer:
the message itself (`interface{}(msg)`) or the output of a transformer. -/
inductive Iface (M R : Type) where
  | ofMessage (msg : M)
  | ofValue (r : R)
  deriving DecidableEq, Repr

/-- Interface `transformers.Transformer`: `Transform(msg) (interface{}, error)`.
The pair is Go's two results, value first, error second. -/
structure Transformer (M R ε : Type) where
  Transform : M → Iface M R × Option ε

/-- Interface `Consumer`: `Consume(messages interface{}) error`, acting on the
consumer's own state `σ`. -/
structure Consumer (σ M R ε : Type) where
  Consume : Iface M R → σ → Option ε × σ

/-- State of the sink during a delivery: the consumer's state and the
arguments of every `Consume` call made so far, oldest first. -/
structure Sink (σ M R : Type) where
  state : σ
  calls : List (Iface M R)

/-- One invocation `c.Consume(m)`: runs the consumer and records the call. -/
def Consumer.call {σ M R ε : Type} (c : Consumer σ M R ε) (m : Iface M R)
    (w : Sink σ M R) : Option ε × Sink σ M R :=
  ((c.Consume m w.state).1, ⟨(c.Consume m w.state).2, w.calls ++ [m]⟩)

/-- Type `handleFunc func(msg messaging.Message) error`, run against the sink. -/
abbrev handleFunc (σ M R ε : Type) : Type :=
  M → Sink σ M R → Option ε × Sink σ M R

/-- Function `handle(t, c)`: `t = none` is the nil transformer.

    m := interface{}(msg)
    var err error
    if t != nil {
        m, err = t.Transform(msg)
        if err != nil { return err }
    }
    return c.Consume(m) -/
def handle {σ M R ε : Type} (t : Option (Transformer M R ε))
    (c : Consumer σ M R ε) : handleFunc σ M R ε :=
  fun msg w =>
    match t with
    | some tr =>
      match (tr.Transform msg).2 with
      | some err => (some err, w)
      | none => c.call (tr.Transform msg).1 w
    | none => c.call (Iface.ofMessage msg) w

/-- Method `handleFunc.Handle`: `return h(msg)`. -/
def handleFunc.Handle {σ M R ε : Type} (h : handleFunc σ M R ε) : handleFunc σ M R ε :=
  fun msg w => h msg w

/-- Method `handleFunc.Cancel`: `return nil`; the sink is not touched. -/
def handleFunc.Cancel {σ M R ε : Type} (_h : handleFunc σ M R ε) :
    Sink σ M R → Option ε × Sink σ M R :=
  fun w => (none, w)

/-- Consumer stub of the retry property: its state counts the calls it has
received; the first call fails with `e`, every later call succeeds. -/
def failFirst {M R ε : Type} (e : ε) : Consumer Nat M R ε :=
  ⟨fun _ n => (if n = 0 then some e else none, n + 1)⟩

/-- Transformer stub that returns `r` with a nil error for every message. -/
def constTransformer {M R ε : Type} (r : R) : Transformer M R ε :=
  ⟨fun _ => (Iface.ofValue r, none)⟩

/-- Transformer stub that fails with `e` for every message. -/
def failTransformer {M R ε : Type} (e : ε) : Transformer M R ε :=
  ⟨fun msg => (Iface.ofMessage msg, some e)⟩

/-- Consumer stub that accepts everything and counts its calls. -/
def okConsumer {M R ε : Type} : Consumer Nat M R ε :=
  ⟨fun _ n => (none, n + 1)⟩

/-! ## Content types and the transformer factory -/

/-- Struct `json.TimeField`. -/
structure TimeField where
  FieldName : String
  FieldFormat : String
  Location : String
  deriving DecidableEq, Repr

/-- Constant `senmlContentType`. -/
def senmlContentType : String := "application/senml+json"

/-- Constant `cborContentType`. -/
def cborContentType : String := "application/senml+cbor"

/-- Constant `jsonContentType`. -/
def jsonContentType : String := "application/json"

/-- Package variable `timeFields`. -/
def timeFields : List TimeField :=
  [ ⟨"seconds_key", "unix", "UTC"⟩,
    ⟨"millis_key", "unix_ms", "UTC"⟩,
    ⟨"micros_key", "unix_us", "UTC"⟩,
    ⟨"nanos_key", "unix_ns", "UTC"⟩ ]

/-- Struct `transformerConfig`. -/
structure transformerConfig where
  ContentType : String
  TimeFields : List TimeField
  deriving DecidableEq, Repr

/-- One call on the `logger.Logger` handed to `Start` and `makeTransformer`. -/
inductive LogEntry where
  | Info (msg : String)
  | Error (msg : String)
  deriving DecidableEq, Repr

/-- How a Go function call ends: it returns a value to its caller, or the
process is terminated by `os.Exit(code)` before it returns. -/
inductive Exec (α : Type) where
  | returned (a : α)
  | exited (code : Nat)
  deriving DecidableEq, Repr

/-- What `consumers/messages.go` uses from outside `src/`:

* `upperCase` is the Unicode table lookup `unicode.To(unicode.UpperCase, r)`
  that `unicode.ToUpper` falls back to for runes above `unicode.MaxASCII`;
* `senmlNew` and `jsonNew` are the constructors `senml.New` and `json.New`
  of the two transformer packages, yielding transformers of type `T`;
* `SubjectAllMessages` and `SubjectAllJSON` are the subject constants of
  package `brokers`. -/
structure Extern (T : Type) where
  upperCase : Char → Char
  senmlNew : String → T
  jsonNew : List TimeField → T
  SubjectAllMessages : String
  SubjectAllJSON : String

/-- Function `unicode.ToUpper`:

    if r <= MaxASCII {
        if 'a' <= r && r <= 'z' { r -= 'a' - 'A' }
        return r
    }
    return To(UpperCase, r) -/
def toUpperRune (upperCase : Char → Char) (r : Char) : Char :=
  if r.toNat ≤ 0x7F then
    if 'a' ≤ r ∧ r ≤ 'z' then Char.ofNat (r.toNat - ('a'.toNat - 'A'.toNat)) else r
  else upperCase r

/-- Function `strings.ToUpper`: every rune of the string replaced by its
`unicode.ToUpper` (the ASCII fast path of the Go implementation computes the
same string). A Go string is modelled by the sequence of runes that ranging
over it yields. -/
def ToUpper (upperCase : Char → Char) (s : String) : String :=
  ⟨s.data.map (toUpperRune upperCase)⟩

/-- Function `makeTransformer(cfg, logger)`: the logger calls it makes, and
either the transformer it returns or the exit status it ends the process with.

    cfg.TimeFields = timeFields
    switch strings.ToUpper(cfg.ContentType) {
    case senmlContentType, cborContentType:
        logger.Info("Using SenML transformer")
        return senml.New(cfg.ContentType)
    case jsonContentType:
        logger.Info("Using JSON transformer")
        return json.New(cfg.TimeFields)
    default:
        logger.Error(fmt.Sprintf("Can't create transformer: unknown transformer type %s", cfg.ContentType))
        os.Exit(1)
        return nil
    } -/
def makeTransformer {T : Type} (x : Extern T) (cfg : transformerConfig) :
    List LogEntry × Exec T :=
  let cfg : transformerConfig := ⟨cfg.ContentType, timeFields⟩
  let tag := ToUpper x.upperCase cfg.ContentType
  if tag = senmlContentType ∨ tag = cborContentType then
    ([LogEntry.Info "Using SenML transformer"], Exec.returned (x.senmlNew cfg.ContentType))
  else if tag = jsonContentType then
    ([LogEntry.Info "Using JSON transformer"], Exec.returned (x.jsonNew cfg.TimeFields))
  else
    ([LogEntry.Error ("Can't create transformer: unknown transformer type " ++ cfg.ContentType)],
      Exec.exited 1)

/-- Symbolic transformer: which constructor built it, and from what argument. -/
inductive TransformerKind where
  | senml (contentType : String)
  | json (fields : List TimeField)
  deriving DecidableEq, Repr

/-- Instance of `Extern` that records constructor calls symbolically; the
Unicode table is left as the identity on runes above ASCII, and the two
subject names stand in for the `brokers` constants. -/
def symbolicExtern : Extern TransformerKind :=
  ⟨id, TransformerKind.senml, TransformerKind.json, "subject.all", "subject.json"⟩

/-! ## Start -/

/-- Interface `messaging.Subscriber`, as far as `Start` uses it:
`Subscribe(id, topic string, handler MessageHandler) error`, acting on the
subscriber's own state `σs`. -/
structure Subscriber (σs H ε : Type) where
  Subscribe : String → String → H → σs → Option ε × σs

/-- One `Subscribe` call made by `Start`: its three arguments and what it
returned. -/
structure SubscribeCall (H ε : Type) where
  id : String
  subject : String
  handler : H
  result : Option ε

/-- What a run of `Start` leaves behind: how it ended (`returned err` or
process exit), the subscriber's state, the `Subscribe` calls it made, oldest
first, and the logger calls. -/
structure StartRun (σs H ε : Type) where
  outcome : Exec (Option ε)
  sub : σs
  calls : List (SubscribeCall H ε)
  log : List LogEntry

/-- Map literal `subjects` of `Start`, in the order it is written. -/
def subjects {T : Type} (x : Extern T) : List (String × transformerConfig) :=
  [ (x.SubjectAllMessages, ⟨senmlContentType, []⟩),
    (x.SubjectAllJSON, ⟨jsonContentType, []⟩) ]

/-- Order in which `range` visits the two entries of the map: Go leaves it
unspecified, so it is an input of the model. -/
inductive RangeOrder where
  | allMessagesFirst
  | allJSONFirst
  deriving DecidableEq, Repr

/-- Entries of `subjects` in the order `range` visits them. -/
def rangeSubjects {T : Type} (x : Extern T) : RangeOrder → List (String × transformerConfig)
  | RangeOrder.allMessagesFirst => subjects x
  | RangeOrder.allJSONFirst => (subjects x).reverse

/-- Loop of `Start` over the entries still to visit, with the transformer
factory it calls as the parameter `mk`:

    for subject, cfg := range subjects {
        transformer := makeTransformer(cfg, logger)
        if err := sub.Subscribe(id, subject, handle(transformer, consumer)); err != nil {
            return err
        }
    }
    return nil -/
def StartWith {σ σs M R ε : Type}
    (mk : transformerConfig → List LogEntry × Exec (Transformer M R ε))
    (id : String) (sub : Subscriber σs (handleFunc σ M R ε) ε) (consumer : Consumer σ M R ε) :
    List (String × transformerConfig) → σs → StartRun σs (handleFunc σ M R ε) ε
  | [], s => ⟨Exec.returned none, s, [], []⟩
  | (subject, cfg) :: rest, s =>
    match mk cfg with
    | (lg, Exec.exited code) => ⟨Exec.exited code, s, [], lg⟩
    | (lg, Exec.returned transformer) =>
      match sub.Subscribe id subject (handle (some transformer) consumer) s with
      | (some err, s1) =>
        ⟨Exec.returned (some err), s1,
          [⟨id, subject, handle (some transformer) consumer, some err⟩], lg⟩
      | (none, s1) =>
        ⟨(StartWith mk id sub consumer rest s1).outcome,
          (StartWith mk id sub consumer rest s1).sub,
          ⟨id, subject, handle (some transformer) consumer, none⟩
            :: (StartWith mk id sub consumer rest s1).calls,
          lg ++ (StartWith mk id sub consumer rest s1).log⟩

/-- Function `Start(id, sub, consumer, logger)`: the loop above, run with
`makeTransformer` over the `subjects` map. -/
def Start {σ σs M R ε : Type} (x : Extern (Transformer M R ε)) (order : RangeOrder)
    (id : String) (sub : Subscriber σs (handleFunc σ M R ε) ε) (consumer : Consumer σ M R ε)
    (s : σs) : StartRun σs (handleFunc σ M R ε) ε :=
  StartWith (makeTransformer x) id sub consumer (rangeSubjects x order) s

/-- Subscriber stub whose state counts the calls received and whose call
number `k` (counting from 0) fails with `e`; every other call succeeds. -/
def failAt {H ε : Type} (k : Nat) (e : ε) : Subscriber Nat H ε :=
  ⟨fun _ _ _ n => (if n = k then some e else none, n + 1)⟩

end Consumers

/-! ## Auth cache client (`pkg/auth/client.go`) -/

namespace Auth

/-- Constant `chanPrefix`. -/
def chanPrefix : String := "channel"

/-- Constant `keyPrefix`. -/
def keyPrefix : String := "thing_key"

/-- Field `redisClient`, as far as the client uses it: `Get(ctx, key).Result()`
yields the stored string and an error (non-nil on a miss or any other cache
failure), acting on the cache's own state `σr`. -/
structure RedisClient (σr ε : Type) where
  Get : String → σr → (String × Option ε) × σr

/-- Interface `mainflux.ThingsServiceClient`, as far as the client uses it, acting
on the service's own state `σt`. `Identify` takes the value of the token sent
and yields `GetValue()` of the reply and an error; `GetConnByKey` takes the key
of the request and yields `ThingID` and `ChannelID` of the reply and an error. -/
structure ThingsServiceClient (σt ε : Type) where
  Identify : String → σt → (String × Option ε) × σt
  GetConnByKey : String → σt → ((String × String) × Option ε) × σt

/-- Struct `client`. -/
structure client (σr σt ε : Type) where
  redisClient : RedisClient σr ε
  things : ThingsServiceClient σt ε

/-- One call made by the client on one of its two collaborators, with the key
it carried. -/
inductive Call where
  | redisGet (key : String)
  | thingsIdentify (value : String)
  | thingsGetConnByKey (key : String)
  deriving DecidableEq, Repr

/-- State around the client: the cache, the things service, and every call the
client has made on them so far, oldest first. -/
structure World (σr σt : Type) where
  redis : σr
  things : σt
  calls : List Call

/-- Method `client.Identify(ctx, thingKey)`:

    tkey := keyPrefix + ":" + thingKey
    thingID, err := c.redisClient.Get(ctx, tkey).Result()
    if err != nil {
        t := &mainflux.Token{Value: string(thingKey)}
        thid, err := c.things.Identify(context.TODO(), t)
        if err != nil { return "", err }
        return thid.GetValue(), nil
    }
    return thingID, nil -/
def client.Identify {σr σt ε : Type} (c : client σr σt ε) (thingKey : String)
    (w : World σr σt) : (String × Option ε) × World σr σt :=
  let tkey := keyPrefix ++ ":" ++ thingKey
  let g := c.redisClient.Get tkey w.redis
  match g.1.2 with
  | some _ =>
    let r := c.things.Identify thingKey w.things
    match r.1.2 with
    | some err =>
      (("", some err), ⟨g.2, r.2, w.calls ++ [Call.redisGet tkey, Call.thingsIdentify thingKey]⟩)
    | none =>
      ((r.1.1, none), ⟨g.2, r.2, w.calls ++ [Call.redisGet tkey, Call.thingsIdentify thingKey]⟩)
  | none => ((g.1.1, none), ⟨g.2, w.things, w.calls ++ [Call.redisGet tkey]⟩)

/-- Method `client.ConnectionIDS(ctx, thingKey)`:

    req := &mainflux.ConnByKeyReq{Key: thingKey}
    conn, err := c.things.GetConnByKey(context.TODO(), req)
    if err != nil { return "", "", err }
    return conn.ThingID, conn.ChannelID, nil -/
def client.ConnectionIDS {σr σt ε : Type} (c : client σr σt ε) (thingKey : String)
    (w : World σr σt) : (String × String × Option ε) × World σr σt :=
  let r := c.things.GetConnByKey thingKey w.things
  match r.1.2 with
  | some err =>
    (("", "", some err), ⟨w.redis, r.2, w.calls ++ [Call.thingsGetConnByKey thingKey]⟩)
  | none =>
    ((r.1.1.1, r.1.1.2, none), ⟨w.redis, r.2, w.calls ++ [Call.thingsGetConnByKey thingKey]⟩)

/-- Cache stub: the state is the stored key-value pairs; a lookup of a missing
key fails with error 404 and leaves the state as it is. -/
def tableCache : RedisClient (List (String × String)) Nat :=
  ⟨fun key tbl =>
    match tbl.lookup key with
    | some v => ((v, none), tbl)
    | none => (("", some 404), tbl)⟩

/-- Things service stub: the state counts the calls received; key `k1` belongs
to thing `thing-1` connected to channel `chan-1`, every other key is rejected
with error 401. -/
def tableThings : ThingsServiceClient Nat Nat :=
  ⟨fun value n => (if value = "k1" then ("thing-1", none) else ("", some 401), n + 1),
   fun key n =>
    (if key = "k1" then (("thing-1", "chan-1"), none) else (("", ""), some 401), n + 1)⟩

/-- Client over the two stubs. -/
def tableClient : client (List (String × String)) Nat Nat :=
  ⟨tableCache, tableThings⟩

/-- Number of cache lookups among the calls. -/
def cacheLookups (calls : List Call) : Nat :=
  (calls.filter (fun c => match c with
    | Call.redisGet _ => true
    | _ => false)).length

/-- Number of calls on the things service among the calls. -/
def thingsCalls (calls : List Call) : Nat :=
  (calls.filter (fun c => match c with
    | Call.redisGet _ => false
    | _ => true)).length

end Auth

namespace Consumers

/-! ## The message handler -/

/-- C1. When `t.Transform(msg)` returns the error `e`, the handler built by
`handle(t, c)` returns exactly `e` and leaves the sink as it found it: the
consumer's state and the log of `Consume` calls are unchanged, so `Consume`
was invoked zero times during the delivery. -/
theorem handle_transform_error {σ M R ε : Type} (t : Transformer M R ε)
    (c : Consumer σ M R ε) (msg : M) (w : Sink σ M R) (e : ε)
    (h : (t.Transform msg).2 = some e) :
    handle (some t) c msg w = (some e, w) ∧
      (handle (some t) c msg w).2.calls.length = w.calls.length := by
  simp [handle, h]

/-- Witness for C1: a transformer that always fails with error 7, an accepting
consumer, message 3, fresh sink. -/
theorem handle_transform_error_witness :
    (handle (some (failTransformer 7 : Transformer Nat Nat Nat)) okConsumer 3 ⟨0, []⟩
        = (some 7, ⟨0, []⟩)) ∧
      (handle (some (failTransformer 7 : Transformer Nat Nat Nat)) okConsumer 3 ⟨0, []⟩).2.calls.length
        = (⟨0, []⟩ : Sink Nat Nat Nat).calls.length :=
  handle_transform_error (failTransformer 7) okConsumer 3 ⟨0, []⟩ 7 rfl

/-- C2. When `t.Transform(msg)` succeeds with output `r`, the handler built by
`handle(t, c)` makes exactly one `Consume` call, its argument is `r`, and the
handler returns what that call returned (nil or the same error). -/
theorem handle_transform_ok {σ M R ε : Type} (t : Transformer M R ε)
    (c : Consumer σ M R ε) (msg : M) (w : Sink σ M R) (r : Iface M R)
    (h : t.Transform msg = (r, none)) :
    (handle (some t) c msg w).1 = (c.Consume r w.state).1 ∧
      (handle (some t) c msg w).2.calls = w.calls ++ [r] ∧
      (handle (some t) c msg w).2.state = (c.Consume r w.state).2 := by
  simp [handle, h, Consumer.call]

/-- Witness for C2: a transformer that always yields 5, the consumer that
fails on its first call with error 9. -/
theorem handle_transform_ok_witness :
    (handle (some (constTransformer 5 : Transformer Nat Nat Nat)) (failFirst 9) 3 ⟨0, []⟩).1
        = ((failFirst 9 : Consumer Nat Nat Nat Nat).Consume (Iface.ofValue 5) 0).1 ∧
      (handle (some (constTransformer 5 : Transformer Nat Nat Nat)) (failFirst 9) 3 ⟨0, []⟩).2.calls
        = [] ++ [Iface.ofValue 5] ∧
      (handle (some (constTransformer 5 : Transformer Nat Nat Nat)) (failFirst 9) 3 ⟨0, []⟩).2.state
        = ((failFirst 9 : Consumer Nat Nat Nat Nat).Consume (Iface.ofValue 5) 0).2 :=
  handle_transform_ok (constTransformer 5) (failFirst 9) 3 ⟨0, []⟩ (Iface.ofValue 5) rfl

/-- C3. One invocation of the handler calls `Consume` at most once, whatever
the transformer (nil or not), consumer and message. With the consumer that
fails on its first call only, a delivery whose transform step does not fail
returns that first failure and leaves exactly one recorded call; the handler
did not retry, although a second delivery would have succeeded. -/
theorem handle_consume_at_most_once {σ M R ε : Type} (t : Option (Transformer M R ε))
    (c : Consumer σ M R ε) (msg : M) (w : Sink σ M R) (e : ε) :
    (handle t c msg w).2.calls.length ≤ w.calls.length + 1 ∧
      ((∀ tr, t = some tr → (tr.Transform msg).2 = none) →
        (handle t (failFirst e) msg ⟨0, []⟩).1 = some e ∧
        (handle t (failFirst e) msg ⟨0, []⟩).2.calls.length = 1 ∧
        (handle t (failFirst e) msg ⟨0, []⟩).2.state = 1 ∧
        (handle t (failFirst e) msg (handle t (failFirst e) msg ⟨0, []⟩).2).1 = none) := by
  cases t with
  | none => simp [handle, Consumer.call, failFirst]
  | some tr =>
    refine ⟨?_, ?_⟩
    · simp only [handle]
      split <;> simp [Consumer.call]
    · intro ht
      have h := ht tr rfl
      simp [handle, h, Consumer.call, failFirst]

/-- Witness for C3: transformer yielding 5, message 3, error 9: the first
delivery returns error 9 after one `Consume` call, the next one succeeds. -/
theorem handle_consume_at_most_once_witness :
    (handle (some (constTransformer 5 : Transformer Nat Nat Nat)) (failFirst 9) 3 ⟨0, []⟩).1 = some 9 ∧
      (handle (some (constTransformer 5 : Transformer Nat Nat Nat)) (failFirst 9) 3 ⟨0, []⟩).2.calls.length = 1 ∧
      (handle (some (constTransformer 5 : Transformer Nat Nat Nat)) (failFirst 9) 3 ⟨0, []⟩).2.state = 1 ∧
      (handle (some (constTransformer 5 : Transformer Nat Nat Nat)) (failFirst 9) 3
        (handle (some (constTransformer 5 : Transformer Nat Nat Nat)) (failFirst 9) 3 ⟨0, []⟩).2).1 = none :=
  (handle_consume_at_most_once (some (constTransformer 5)) (okConsumer : Consumer Nat Nat Nat Nat)
    3 ⟨0, []⟩ 9).2 (fun tr h => by cases h; rfl)

/-- C4. With no transformer bound, the handler built by `handle(nil, c)` makes
exactly one `Consume` call, its argument is the raw message itself, and the
handler returns whatever that call returned. -/
theorem handle_nil_transformer {σ M R ε : Type} (c : Consumer σ M R ε) (msg : M)
    (w : Sink σ M R) :
    (handle none c msg w).1 = (c.Consume (Iface.ofMessage msg) w.state).1 ∧
      (handle none c msg w).2.calls = w.calls ++ [Iface.ofMessage msg] ∧
      (handle none c msg w).2.state = (c.Consume (Iface.ofMessage msg) w.state).2 := by
  simp [handle, Consumer.call]

/-! ## The transformer factory -/

/-- C5. `makeTransformer` upper-cases the content type and compares the result
with the lower-case constants, so neither `application/json` nor
`APPLICATION/JSON` reaches the JSON case: for both, whatever the incoming
time fields and whatever lies outside `src/`, it logs the unknown type and the
process is ended with status 1. -/
theorem makeTransformer_json_either_case_exits {T : Type} (x : Extern T)
    (tf : List TimeField) :
    makeTransformer x ⟨"application/json", tf⟩ =
        ([LogEntry.Error "Can't create transformer: unknown transformer type application/json"],
          Exec.exited 1) ∧
      makeTransformer x ⟨"APPLICATION/JSON", tf⟩ =
        ([LogEntry.Error "Can't create transformer: unknown transformer type APPLICATION/JSON"],
          Exec.exited 1) ∧
      ToUpper x.upperCase "application/json" = "APPLICATION/JSON" ∧
      ToUpper x.upperCase "APPLICATION/JSON" = "APPLICATION/JSON" :=
  ⟨rfl, rfl, rfl, rfl⟩

/-- C6. Each of the three recognised content types, passed as the constants
themselves, falls through to the unknown-type branch of `makeTransformer`:
neither `senml.New` nor `json.New` is called and the process exits with
status 1. -/
theorem makeTransformer_known_types_exit {T : Type} (x : Extern T) (tf : List TimeField) :
    (makeTransformer x ⟨senmlContentType, tf⟩).2 = Exec.exited 1 ∧
      (makeTransformer x ⟨cborContentType, tf⟩).2 = Exec.exited 1 ∧
      (makeTransformer x ⟨jsonContentType, tf⟩).2 = Exec.exited 1 ∧
      (makeTransformer x ⟨senmlContentType, tf⟩).1 =
        [LogEntry.Error
          "Can't create transformer: unknown transformer type application/senml+json"] :=
  ⟨rfl, rfl, rfl, rfl⟩

/-- Rune `a` is never the upper case of a rune, provided the Unicode table
does not map a rune above ASCII to it. -/
theorem toUpperRune_ne_a (up : Char → Char)
    (hup : ∀ r : Char, 0x7F < r.toNat → up r ≠ 'a') (r : Char) :
    toUpperRune up r ≠ 'a' := by
  unfold toUpperRune
  split
  · split
    · rename_i h
      intro hc
      have h1 : 'a'.toNat ≤ r.toNat := h.1
      have h2 : r.toNat ≤ 'z'.toNat := h.2
      have h3 : (Char.ofNat (r.toNat - ('a'.toNat - 'A'.toNat))).toNat = 'a'.toNat := by
        rw [hc]
      have ha : 'a'.toNat = 97 := rfl
      have hA : 'A'.toNat = 65 := rfl
      have hz : 'z'.toNat = 122 := rfl
      rw [ha] at h1
      rw [hz] at h2
      rw [ha, hA] at h3
      have hv : (r.toNat - (97 - 65)).isValidChar := by
        left
        omega
      have h4 : (Char.ofNat (r.toNat - (97 - 65))).toNat = r.toNat - (97 - 65) := by
        simp only [Char.ofNat, hv, dite_true]
        rfl
      omega
    · rename_i h
      intro hc
      apply h
      rw [hc]
      decide
  · rename_i h
    exact hup r (by omega)

/-- No string upper-cases to a string that starts with the rune `a`. -/
theorem ToUpper_ne_of_head_a (up : Char → Char)
    (hup : ∀ r : Char, 0x7F < r.toNat → up r ≠ 'a') (s : String) (rest : List Char) :
    ToUpper up s ≠ ⟨'a' :: rest⟩ := by
  intro h
  have hd : s.data.map (toUpperRune up) = 'a' :: rest := congrArg String.data h
  cases hs : s.data with
  | nil => rw [hs] at hd; simp at hd
  | cons c cs =>
    rw [hs] at hd
    simp only [List.map_cons, List.cons.injEq] at hd
    exact toUpperRune_ne_a up hup c hd.1

/-- C7. Every content-type string takes the fatal path of `makeTransformer`,
the three recognised ones included, as long as the Unicode table maps no rune
above ASCII to the lower-case letter `a` (true of Go's table): no constructor is
called, the unknown type is logged and the process exits with status 1. The
fatal path is therefore not confined to the unrecognised strings. -/
theorem makeTransformer_always_exits {T : Type} (x : Extern T)
    (hup : ∀ r : Char, 0x7F < r.toNat → x.upperCase r ≠ 'a') (cfg : transformerConfig) :
    makeTransformer x cfg =
      ([LogEntry.Error
          ("Can't create transformer: unknown transformer type " ++ cfg.ContentType)],
        Exec.exited 1) := by
  have h1 : ToUpper x.upperCase cfg.ContentType ≠ senmlContentType :=
    ToUpper_ne_of_head_a x.upperCase hup cfg.ContentType _
  have h2 : ToUpper x.upperCase cfg.ContentType ≠ cborContentType :=
    ToUpper_ne_of_head_a x.upperCase hup cfg.ContentType _
  have h3 : ToUpper x.upperCase cfg.ContentType ≠ jsonContentType :=
    ToUpper_ne_of_head_a x.upperCase hup cfg.ContentType _
  simp [makeTransformer, h1, h2, h3]

/-- Witness for C7: the recognised type `application/json`, with the symbolic
constructors. -/
theorem makeTransformer_always_exits_witness :
    makeTransformer symbolicExtern ⟨"application/json", []⟩ =
      ([LogEntry.Error
          ("Can't create transformer: unknown transformer type " ++ "application/json")],
        Exec.exited 1) :=
  makeTransformer_always_exits symbolicExtern
    (fun r h hc => by
      have h5 : r.toNat = 'a'.toNat := congrArg Char.toNat hc
      have ha : 'a'.toNat = 97 := rfl
      omega)
    ⟨"application/json", []⟩

/-! ## Start -/

/-- C8. Whatever the identity, subscriber, consumer and visiting order of the
map, `Start` ends the process with exit status 1 inside its first
`makeTransformer` call: it does not return, it makes no `Subscribe` call and
the subscriber's state is untouched. -/
theorem Start_exits_before_subscribing {σ σs M R ε : Type}
    (x : Extern (Transformer M R ε)) (order : RangeOrder) (id : String)
    (sub : Subscriber σs (handleFunc σ M R ε) ε) (consumer : Consumer σ M R ε) (s : σs) :
    (Start x order id sub consumer s).outcome = Exec.exited 1 ∧
      (Start x order id sub consumer s).calls.length = 0 ∧
      (Start x order id sub consumer s).sub = s := by
  cases order <;> exact ⟨rfl, rfl, rfl⟩

/-- C9. A subscriber that rejects its next `Subscribe` call with `e` never gets
to do so: whatever the identity, consumer and visiting order of the map,
`Start` makes no `Subscribe` call, leaves the subscriber as it was and, instead
of returning `e`, ends the process with exit status 1 inside its first
`makeTransformer` call. -/
theorem Start_subscribe_error_not_returned {σ M R ε : Type}
    (x : Extern (Transformer M R ε)) (order : RangeOrder) (id : String)
    (consumer : Consumer σ M R ε) (k : Nat) (e : ε) :
    (∀ (subject : String) (h : handleFunc σ M R ε),
        ((failAt k e : Subscriber Nat (handleFunc σ M R ε) ε).Subscribe id subject h k).1
          = some e) ∧
      (Start x order id (failAt k e) consumer k).outcome = Exec.exited 1 ∧
      (Start x order id (failAt k e) consumer k).outcome ≠ Exec.returned (some e) ∧
      (Start x order id (failAt k e) consumer k).calls.length = 0 ∧
      (Start x order id (failAt k e) consumer k).sub = k := by
  refine ⟨fun _ _ => by simp [failAt], ?_⟩
  cases order <;>
  · refine ⟨rfl, ?_, rfl, rfl⟩
    intro h
    have h2 : (Exec.exited 1 : Exec (Option ε)) = Exec.returned (some e) := h
    cases h2

/-! ## Time fields and the cancellation hook -/

/-- C11. The static table `timeFields` is as described: four entries, seconds,
millis, micros, nanos in that order, with pairwise distinct names, all in UTC;
`makeTransformer` discards the time fields of the incoming configuration, and
the only list it could pass to `json.New` is that table. But for the JSON
content type it never gets that far: whatever time fields the configuration
carries, it ends the process with status 1 and `json.New` receives nothing. -/
theorem makeTransformer_json_timeFields_unreached {T : Type} (x : Extern T)
    (tf : List TimeField) :
    (makeTransformer x ⟨jsonContentType, tf⟩).2 = Exec.exited 1 ∧
      (∀ (ct : String) (tf2 : List TimeField),
        makeTransformer x ⟨ct, tf⟩ = makeTransformer x ⟨ct, tf2⟩) ∧
      (∀ ct : String,
        (makeTransformer x ⟨ct, tf⟩).2 = Exec.exited 1 ∨
          (makeTransformer x ⟨ct, tf⟩).2 = Exec.returned (x.senmlNew ct) ∨
          (makeTransformer x ⟨ct, tf⟩).2 = Exec.returned (x.jsonNew timeFields)) ∧
      timeFields.map (fun f => (f.FieldName, f.FieldFormat)) =
        [("seconds_key", "unix"), ("millis_key", "unix_ms"), ("micros_key", "unix_us"),
          ("nanos_key", "unix_ns")] ∧
      (timeFields.map (fun f => f.FieldName)).Nodup ∧
      (∀ f ∈ timeFields, f.Location = "UTC") := by
  refine ⟨rfl, fun _ _ => rfl, ?_, rfl, by decide, by decide⟩
  intro ct
  simp only [makeTransformer]
  split
  · exact Or.inr (Or.inl rfl)
  · split
    · exact Or.inr (Or.inr rfl)
    · exact Or.inl rfl

/-- C14. For every handler `h`: `Cancel` returns nil and leaves the sink as it
found it, so no `Consume` call is made; its result does not depend on `h`, so
the wrapped function is not run; and `Handle(msg)` is exactly `h(msg)`. -/
theorem handleFunc_Cancel_no_work {σ M R ε : Type} (h : handleFunc σ M R ε)
    (w : Sink σ M R) :
    handleFunc.Cancel h w = (none, w) ∧
      (∀ h2 : handleFunc σ M R ε, handleFunc.Cancel h w = handleFunc.Cancel h2 w) ∧
      (∀ msg : M, handleFunc.Handle h msg w = h msg w) :=
  ⟨rfl, fun _ => rfl, fun _ => rfl⟩

end Consumers

namespace Auth

/-! ## Auth cache client -/

/-- C12. `client.Identify` looks the key up in the cache under
`thing_key:<key>` first. If the lookup succeeds with `id`, it returns `id` with a
nil error, the cache lookup is the only call it makes and the things service is
left untouched. If the lookup fails with any error, it calls `Identify` of the
things service exactly once with the key, and returns that reply's value with a
nil error when the call succeeds, or the empty string with the service's error
when it fails. -/
theorem client_Identify_cache_then_things {σr σt ε : Type} (c : client σr σt ε)
    (key : String) (w : World σr σt) :
    (∀ id : String, (c.redisClient.Get (keyPrefix ++ ":" ++ key) w.redis).1 = (id, none) →
        (c.Identify key w).1 = (id, none) ∧
          (c.Identify key w).2.calls = w.calls ++ [Call.redisGet (keyPrefix ++ ":" ++ key)] ∧
          (c.Identify key w).2.things = w.things) ∧
      (∀ e : ε, (c.redisClient.Get (keyPrefix ++ ":" ++ key) w.redis).1.2 = some e →
        (c.Identify key w).2.calls =
            w.calls ++ [Call.redisGet (keyPrefix ++ ":" ++ key), Call.thingsIdentify key] ∧
          (c.Identify key w).2.things = (c.things.Identify key w.things).2 ∧
          (∀ v : String, (c.things.Identify key w.things).1 = (v, none) →
            (c.Identify key w).1 = (v, none)) ∧
          (∀ (v : String) (e2 : ε), (c.things.Identify key w.things).1 = (v, some e2) →
            (c.Identify key w).1 = ("", some e2))) := by
  refine ⟨?_, ?_⟩
  · intro id h
    simp [client.Identify, h]
  · intro e h
    refine ⟨?_, ?_, ?_, ?_⟩
    · simp only [client.Identify, h]
      split <;> rfl
    · simp only [client.Identify, h]
      split <;> rfl
    · intro v hv
      simp [client.Identify, h, hv]
    · intro v e2 hv
      simp [client.Identify, h, hv]

/-- Witness for C12: key `k1` with the cache holding `cached-1` under
`thing_key:k1` (hit), and key `k2` with an empty cache and a things service that
rejects it (miss, then service error 401). -/
theorem client_Identify_cache_then_things_witness :
    ((tableClient.Identify "k1" ⟨[("thing_key:k1", "cached-1")], 0, []⟩).1 = ("cached-1", none) ∧
        (tableClient.Identify "k1" ⟨[("thing_key:k1", "cached-1")], 0, []⟩).2.calls
          = [] ++ [Call.redisGet (keyPrefix ++ ":" ++ "k1")] ∧
        (tableClient.Identify "k1" ⟨[("thing_key:k1", "cached-1")], 0, []⟩).2.things = 0) ∧
      (tableClient.Identify "k2" ⟨[], 0, []⟩).1 = ("", some 401) :=
  ⟨(client_Identify_cache_then_things tableClient "k1"
      ⟨[("thing_key:k1", "cached-1")], 0, []⟩).1 "cached-1" (by decide),
    ((client_Identify_cache_then_things tableClient "k2" ⟨[], 0, []⟩).2 404 (by decide)).2.2.2
      "" 401 (by decide)⟩

/-- C13, refuted as stated. With a cache that holds entries for the key and for
its channel, `client.ConnectionIDS` makes no cache lookup at all: its only call
is `GetConnByKey` on the things service, although a lookup of the key in the
cache would have succeeded. -/
theorem ConnectionIDS_no_cache_lookup :
    (tableCache.Get "thing_key:k1"
        [("thing_key:k1", "thing-1"), ("channel:chan-1", "thing-1")]).1 = ("thing-1", none) ∧
      (tableClient.ConnectionIDS "k1"
        ⟨[("thing_key:k1", "thing-1"), ("channel:chan-1", "thing-1")], 0, []⟩).2.calls
          = [Call.thingsGetConnByKey "k1"] ∧
      cacheLookups (tableClient.ConnectionIDS "k1"
        ⟨[("thing_key:k1", "thing-1"), ("channel:chan-1", "thing-1")], 0, []⟩).2.calls = 0 ∧
      thingsCalls (tableClient.ConnectionIDS "k1"
        ⟨[("thing_key:k1", "thing-1"), ("channel:chan-1", "thing-1")], 0, []⟩).2.calls = 1 := by
  decide

/-- C13, amended. `client.ConnectionIDS` does not consult the cache: for every
key it makes exactly one call, `GetConnByKey` on the things service with that
key, and leaves the cache as it is; it returns the reply's thing and channel
identifiers with a nil error when the call succeeds, and two empty strings with
the service's error when it fails. -/
theorem client_ConnectionIDS_things_only {σr σt ε : Type} (c : client σr σt ε)
    (key : String) (w : World σr σt) :
    (c.ConnectionIDS key w).2.calls = w.calls ++ [Call.thingsGetConnByKey key] ∧
      (c.ConnectionIDS key w).2.redis = w.redis ∧
      (c.ConnectionIDS key w).2.things = (c.things.GetConnByKey key w.things).2 ∧
      (∀ thingID channelID : String,
        (c.things.GetConnByKey key w.things).1 = ((thingID, channelID), none) →
          (c.ConnectionIDS key w).1 = (thingID, channelID, none)) ∧
      (∀ (v : String × String) (e : ε),
        (c.things.GetConnByKey key w.things).1 = (v, some e) →
          (c.ConnectionIDS key w).1 = ("", "", some e)) := by
  refine ⟨?_, ?_, ?_, ?_, ?_⟩
  · simp only [client.ConnectionIDS]
    split <;> rfl
  · simp only [client.ConnectionIDS]
    split <;> rfl
  · simp only [client.ConnectionIDS]
    split <;> rfl
  · intro t ch h
    simp [client.ConnectionIDS, h]
  · intro v e h
    simp [client.ConnectionIDS, h]

/-- Witness for C13 amended: key `k1` is resolved by the things service, key `k2`
is rejected with error 401. -/
theorem client_ConnectionIDS_things_only_witness :
    (tableClient.ConnectionIDS "k1" ⟨[], 0, []⟩).1 = ("thing-1", "chan-1", none) ∧
      (tableClient.ConnectionIDS "k2" ⟨[], 0, []⟩).1 = ("", "", some 401) :=
  ⟨(client_ConnectionIDS_things_only tableClient "k1" ⟨[], 0, []⟩).2.2.2.1
      "thing-1" "chan-1" (by decide),
    (client_ConnectionIDS_things_only tableClient "k2" ⟨[], 0, []⟩).2.2.2.2
      ("", "") 401 (by decide)⟩

end Auth
